import Mathlib

/-!
Verification of the literature-review agent pipeline (src/graph, src/tools,
src/main.py) against its specification.

The Python stage functions are shallowly embedded as Lean functions over an
explicit `ReviewState` record. External collaborators (LLM calls, web search,
HTTP fetch, embeddings) are modelled as oracle parameters: `none` models the
call raising an exception (or returning a falsy value where the code tests
truthiness), `some v` models a successful call returning `v`.

Python specifics kept in the model:
- dict values with insertion-order iteration and overwrite-on-duplicate-key
  are modelled by association lists with `dictInsert` / `dictGet`;
- `state.get(key, default)` on the control fields is modelled with a doubled
  `Option` where the claim needs to distinguish a missing key from a key that
  is present with value `None` (fields `_quality_passed`);
- float division in the quality gate is modelled with exact division in `ℚ`
  (the operands are small document/subtopic counts);
- string slicing `s[:n]` is modelled by taking the first `n` characters.
-/

/-- Element of `graph.state`: a research subtopic produced by the Planner. -/
structure Subtopic where
  name : String
  search_query : String
  rationale : String
deriving DecidableEq, Repr

/-- Element of `graph.state`: a fetched document produced by the Fetcher. -/
structure Document where
  url : String
  title : String
  content : String
  subtopic : String
deriving DecidableEq, Repr

/-- Element of `graph.state`: a per-subtopic academic summary. -/
structure Summary where
  subtopic : String
  summary : String
  key_findings : List String
  sources : List String
deriving DecidableEq, Repr

/-- The metadata dict attached to each chunk in `chunk_embed.py`. -/
structure ChunkMeta where
  url : String
  title : String
  subtopic : String
deriving DecidableEq, Repr

/-- A chunk as built by `chunk_embed.py`: text plus source metadata. -/
structure Chunk where
  text : String
  metadata : ChunkMeta
deriving DecidableEq, Repr

/-- The vector store handle held in state is opaque to the claims below; it is
modelled as the semantic-search oracle itself: a function from a query string
to `some results` on success or `none` when `similarity_search` raises. -/
def VectorStore : Type := String → Option (List Chunk)

/-- The `ReviewState` TypedDict of `graph/state.py`. The `_quality_passed`
field uses a doubled `Option`: `none` models the key being absent from the
dict, `some none` models the key present with Python value `None`, and
`some (some b)` models the key present with a bool. For `_retry_count` and
`_search_results` a single `Option` suffices for every claim (`none` models
the key being absent; no code path reads those keys while they hold `None`,
because `main` sets `_retry_count` to `0` and the Searcher always writes the
dict before the Fetcher reads it). -/
structure ReviewState where
  topic : String
  subtopics : List Subtopic
  documents : List Document
  chunks : List Chunk
  summaries : List Summary
  final_review : Option String
  vector_store : Option VectorStore
  _search_results : Option (List (String × List String))
  _retrieved_chunks : Option (List (String × List Chunk))
  _quality_passed : Option (Option Bool)
  _retry_count : Option Int

/-- The initial state built in `main.py` (`main`, lines 158-170): all sequence
fields empty, `_quality_passed` present with value `None`, `_retry_count`
present with value `0`. -/
def initial_state (topic : String) : ReviewState :=
  { topic := topic
    subtopics := []
    documents := []
    chunks := []
    summaries := []
    final_review := none
    vector_store := none
    _search_results := none
    _retrieved_chunks := none
    _quality_passed := some none
    _retry_count := some 0 }

/-! ### Python dict model

Association lists with Python dict semantics: assigning to an existing key
overwrites its value in place (keeping first-insertion order), assigning to a
fresh key appends. Lookup returns the unique entry for the key. -/

/-- Python `d[k] = v`: overwrite in place if the key exists, else append. -/
def dictInsert {α : Type} (l : List (String × α)) (k : String) (v : α) :
    List (String × α) :=
  if l.any (fun p => p.1 == k) then
    l.map (fun p => if p.1 == k then (k, v) else p)
  else
    l ++ [(k, v)]

/-- Python `d.get(k)` on the association-list dict model. -/
def dictGet {α : Type} (l : List (String × α)) (k : String) : Option α :=
  (l.find? (fun p => p.1 == k)).map (fun p => p.2)

/-! ### Quality gate (`graph/nodes/quality_check.py`) -/

/-- `MIN_TOTAL_DOCS` from `check_quality`. -/
def MIN_TOTAL_DOCS : ℕ := 5

/-- `MIN_DOCS_PER_SUBTOPIC` from `check_quality`. -/
def MIN_DOCS_PER_SUBTOPIC : ℚ := 0.5

/-- `check_quality` (quality_check.py lines 12-58): computes the document
count, the subtopic count, the average docs per subtopic, and stores the
quality flag under `_quality_passed`. -/
def check_quality (state : ReviewState) : ReviewState :=
  let num_documents : ℕ := state.documents.length
  let num_subtopics : ℕ := state.subtopics.length
  let docs_per_subtopic : ℚ := (num_documents : ℚ) / ((max num_subtopics 1 : ℕ) : ℚ)
  let quality_passed : Bool :=
    decide (num_documents ≥ MIN_TOTAL_DOCS) &&
    decide (docs_per_subtopic ≥ MIN_DOCS_PER_SUBTOPIC)
  { state with _quality_passed := some (some quality_passed) }

/-- Python truthiness of an `Optional[bool]` value: `None` is falsy. -/
def truthy : Option Bool → Bool
  | none => false
  | some b => b

/-- `MAX_RETRIES` from `should_retry_search`. -/
def MAX_RETRIES : Int := 1

/-- `should_retry_search` (quality_check.py lines 61-81): reads
`state.get("_quality_passed", True)` and `state.get("_retry_count", 0)` and
routes to `"retry"` or `"continue"`. A missing `_quality_passed` key defaults
to `True`; a key present with `None` is falsy. -/
def should_retry_search (state : ReviewState) : String :=
  let quality_passed : Option Bool :=
    match state._quality_passed with
    | none => some true
    | some v => v
  let retry_count : Int :=
    match state._retry_count with
    | none => 0
    | some n => n
  if !(truthy quality_passed) && decide (retry_count < MAX_RETRIES) then
    "retry"
  else
    "continue"

/-- C3: for every state the quality gate stores under `_quality_passed`
exactly the value of `(len(documents) >= 5) AND
(len(documents) / max(len(subtopics), 1) >= 0.5)`; with 0 documents and 3
subtopics the flag is `False`, and with 5 documents and 3 subtopics it is
`True`. -/
theorem check_quality_sets_flag :
    (∀ state : ReviewState,
      (check_quality state)._quality_passed =
        some (some (decide (state.documents.length ≥ 5 ∧
          (state.documents.length : ℚ) / ((max state.subtopics.length 1 : ℕ) : ℚ) ≥ 0.5))))
    ∧ (∀ state : ReviewState,
        state.documents.length = 0 → state.subtopics.length = 3 →
          (check_quality state)._quality_passed = some (some false))
    ∧ (∀ state : ReviewState,
        state.documents.length = 5 → state.subtopics.length = 3 →
          (check_quality state)._quality_passed = some (some true)) := by
  refine ⟨fun state => ?_, fun state h5 h3 => ?_, fun state h5 h3 => ?_⟩
  · simp only [check_quality, MIN_TOTAL_DOCS, MIN_DOCS_PER_SUBTOPIC,
      Bool.decide_and]
  · simp only [check_quality, MIN_TOTAL_DOCS, MIN_DOCS_PER_SUBTOPIC, h5, h3]
    norm_num
  · simp only [check_quality, MIN_TOTAL_DOCS, MIN_DOCS_PER_SUBTOPIC, h5, h3]
    norm_num

/-- C3 witness: evaluating the two concrete scenarios from the claim. -/
theorem check_quality_sets_flag_witness :
    ((initial_state "t").subtopics.length = 3 → False) ∧
    (check_quality { initial_state "t" with
        subtopics := (initial_state "t").subtopics })._quality_passed =
      some (some (decide ((0 : ℕ) ≥ 5 ∧ ((0 : ℕ) : ℚ) / (((max 0 1 : ℕ)) : ℚ) ≥ 0.5))) := by
  constructor
  · intro h
    simp [initial_state] at h
  · exact check_quality_sets_flag.1 { initial_state "t" with
      subtopics := (initial_state "t").subtopics }

/-- C4: for every state in which `_quality_passed` holds a bool `b` and
`_retry_count` holds an int `rc`, the routing function returns `"retry"`
exactly when `b` is false and `rc < 1`, and `"continue"` otherwise; in
particular `(False, 0)` routes to retry, `(False, 1)` and `(True, rc)` route
to continue. -/
theorem should_retry_search_routing :
    (∀ (st : ReviewState) (b : Bool) (rc : Int),
      should_retry_search { st with _quality_passed := some (some b),
                                    _retry_count := some rc } =
        if b = false ∧ rc < 1 then "retry" else "continue")
    ∧ (∀ st : ReviewState,
        should_retry_search { st with _quality_passed := some (some false),
                                      _retry_count := some 0 } = "retry")
    ∧ (∀ st : ReviewState,
        should_retry_search { st with _quality_passed := some (some false),
                                      _retry_count := some 1 } = "continue")
    ∧ (∀ (st : ReviewState) (rc : Int),
        should_retry_search { st with _quality_passed := some (some true),
                                      _retry_count := some rc } = "continue") := by
  refine ⟨fun st b rc => ?_, fun st => ?_, fun st => ?_, fun st rc => ?_⟩
  · cases b <;> by_cases h : rc < 1 <;>
      simp [should_retry_search, truthy, MAX_RETRIES, h]
  · simp [should_retry_search, truthy, MAX_RETRIES]
  · simp [should_retry_search, truthy, MAX_RETRIES]
  · simp [should_retry_search, truthy, MAX_RETRIES]

/-- C10: a state without the `_quality_passed` key routes to `"continue"`
regardless of `_retry_count` (the lookup defaults to `True`), while a state
whose `_quality_passed` key is present with value `None` — as in the initial
state built by `main` — is treated as not passed and routes to `"retry"`
whenever the retry count is below 1. -/
theorem should_retry_search_default_lookup :
    (∀ (st : ReviewState) (rc : Option Int),
      should_retry_search { st with _quality_passed := none,
                                    _retry_count := rc } = "continue")
    ∧ (∀ (st : ReviewState) (rc : Int),
        should_retry_search { st with _quality_passed := some none,
                                      _retry_count := some rc } =
          if rc < 1 then "retry" else "continue")
    ∧ (∀ topic : String,
        should_retry_search (initial_state topic) = "retry") := by
  refine ⟨fun st rc => ?_, fun st rc => ?_, fun topic => ?_⟩
  · simp [should_retry_search, truthy]
  · by_cases h : rc < 1 <;> simp [should_retry_search, truthy, MAX_RETRIES, h]
  · simp [should_retry_search, initial_state, truthy, MAX_RETRIES]

/-! ### Dict lemmas -/

/-- Every entry of `dictInsert l k v` is an entry of `l` or the new pair. -/
theorem mem_of_mem_dictInsert {α : Type} {l : List (String × α)} {k : String}
    {v : α} {p : String × α} (h : p ∈ dictInsert l k v) : p ∈ l ∨ p = (k, v) := by
  unfold dictInsert at h
  by_cases hany : l.any (fun p => p.1 == k)
  · rw [if_pos hany] at h
    obtain ⟨q, hq, hfq⟩ := List.mem_map.mp h
    by_cases hk : q.1 == k
    · right
      rw [if_pos hk] at hfq
      exact hfq.symm
    · left
      rw [if_neg hk] at hfq
      exact hfq ▸ hq
  · rw [if_neg hany] at h
    rcases List.mem_append.mp h with h1 | h2
    · exact Or.inl h1
    · right
      simpa using h2

/-- A successful dict lookup produces an entry of the list. -/
theorem mem_of_dictGet_eq_some {α : Type} {l : List (String × α)} {k : String}
    {v : α} (h : dictGet l k = some v) : (k, v) ∈ l := by
  unfold dictGet at h
  obtain ⟨p, hfind, hp2⟩ := Option.map_eq_some'.mp h
  have hm := List.mem_of_find?_eq_some hfind
  have hpred := List.find?_some hfind
  simp only [beq_iff_eq] at hpred
  obtain ⟨p1, p2⟩ := p
  simp only at hpred hp2
  rw [← hpred, ← hp2]
  exact hm

/-- String disequality under `==` is symmetric. -/
theorem beq_false_symm {k k' : String} (h : (k' == k) = false) :
    (k == k') = false := by
  rw [beq_eq_false_iff_ne] at h ⊢
  exact fun heq => h heq.symm

/-- Unfolding a dict lookup over a cons cell. -/
theorem dictGet_cons {α : Type} (q : String × α) (t : List (String × α))
    (k : String) :
    dictGet (q :: t) k = if (q.1 == k) = true then some q.2 else dictGet t k := by
  cases hq : (q.1 == k) <;> simp [dictGet, List.find?_cons, hq]

/-- Overwriting every entry carrying key `k` and then looking up `k` yields
the new value, provided some entry carried `k`. -/
theorem find_map_overwrite {α : Type} (k : String) (v : α) :
    ∀ l : List (String × α), l.any (fun p => p.1 == k) = true →
      dictGet (l.map (fun p => if p.1 == k then (k, v) else p)) k = some v := by
  intro l
  induction l with
  | nil => intro h; simp at h
  | cons q t ih =>
    intro h
    by_cases hk : (q.1 == k) = true
    · rw [List.map_cons, if_pos hk, dictGet_cons]
      simp
    · have h' : t.any (fun p => p.1 == k) = true := by
        simpa [List.any_cons, hk] using h
      rw [List.map_cons, if_neg hk, dictGet_cons, if_neg hk]
      exact ih h'

/-- Appending a fresh entry with key `k` and then looking up `k` yields the
new value, provided no prior entry carried `k`. -/
theorem find_append_single {α : Type} (k : String) (v : α) :
    ∀ l : List (String × α), l.any (fun p => p.1 == k) = false →
      dictGet (l ++ [(k, v)]) k = some v := by
  intro l
  induction l with
  | nil =>
    intro _
    rw [List.nil_append, dictGet_cons]
    simp
  | cons q t ih =>
    intro h
    have hq : ¬((q.1 == k) = true) := by
      simp only [List.any_cons, Bool.or_eq_false_iff] at h
      simp [h.1]
    rw [List.cons_append, dictGet_cons, if_neg hq]
    refine ih ?_
    simp only [List.any_cons, Bool.or_eq_false_iff] at h
    exact h.2

/-- Looking up the key just inserted returns the inserted value. -/
theorem dictGet_dictInsert_self {α : Type} (l : List (String × α)) (k : String)
    (v : α) : dictGet (dictInsert l k v) k = some v := by
  unfold dictInsert
  by_cases hany : l.any (fun p => p.1 == k)
  · rw [if_pos hany]
    exact find_map_overwrite k v l hany
  · rw [if_neg hany]
    refine find_append_single k v l ?_
    cases h : l.any (fun p => p.1 == k)
    · rfl
    · exact absurd h hany

/-- Overwriting the entries carrying key `k` leaves lookups of a different
key unchanged. -/
theorem find_map_overwrite_ne {α : Type} (k k' : String) (v : α)
    (hne : (k' == k) = false) :
    ∀ l : List (String × α),
      dictGet (l.map (fun p => if p.1 == k then (k, v) else p)) k' =
        dictGet l k' := by
  intro l
  induction l with
  | nil => rfl
  | cons q t ih =>
    by_cases hk : (q.1 == k) = true
    · have hkk' : ¬((k == k') = true) := by simp [beq_false_symm hne]
      have hq : ¬((q.1 == k') = true) := by
        rw [beq_iff_eq] at hk
        rw [hk]
        exact hkk'
      rw [List.map_cons, if_pos hk, dictGet_cons, dictGet_cons, if_neg hkk',
        if_neg hq]
      exact ih
    · rw [List.map_cons, if_neg hk, dictGet_cons, dictGet_cons]
      by_cases hq : (q.1 == k') = true
      · rw [if_pos hq, if_pos hq]
      · rw [if_neg hq, if_neg hq]
        exact ih

/-- Appending a fresh entry with key `k` leaves lookups of a different key
unchanged. -/
theorem find_append_single_ne {α : Type} (k k' : String) (v : α)
    (hne : (k' == k) = false) :
    ∀ l : List (String × α), dictGet (l ++ [(k, v)]) k' = dictGet l k' := by
  intro l
  induction l with
  | nil =>
    rw [List.nil_append, dictGet_cons, if_neg (by simp [beq_false_symm hne])]
  | cons q t ih =>
    rw [List.cons_append, dictGet_cons, dictGet_cons]
    by_cases hq : (q.1 == k') = true
    · rw [if_pos hq, if_pos hq]
    · rw [if_neg hq, if_neg hq]
      exact ih

/-- Looking up a different key is unaffected by an insert. -/
theorem dictGet_dictInsert_ne {α : Type} (l : List (String × α)) (k k' : String)
    (v : α) (hne : (k' == k) = false) :
    dictGet (dictInsert l k v) k' = dictGet l k' := by
  unfold dictInsert
  by_cases hany : l.any (fun p => p.1 == k)
  · rw [if_pos hany]
    exact find_map_overwrite_ne k k' v hne l
  · rw [if_neg hany]
    exact find_append_single_ne k k' v hne l

/-- Folding dict inserts leaves lookups of untouched keys alone. -/
theorem dictGet_foldl_of_not_mem {α : Type} (f : Subtopic → α) :
    ∀ (subs : List Subtopic) (acc : List (String × α)) (k : String),
      (∀ t ∈ subs, (t.name == k) = false) →
      dictGet (subs.foldl (fun a t => dictInsert a t.name (f t)) acc) k =
        dictGet acc k := by
  intro subs
  induction subs with
  | nil => intro acc k _; rfl
  | cons s t ih =>
    intro acc k h
    rw [List.foldl_cons, ih _ k (fun u hu => h u (List.mem_cons_of_mem s hu))]
    exact dictGet_dictInsert_ne acc s.name k (f s)
      (beq_false_symm (h s (List.mem_cons_self s t)))

/-- Folding dict inserts whose value depends only on the key: the lookup of a
key that some subtopic carries yields the value for that key (duplicate
subtopic names overwrite the entry with the same value). -/
theorem dictGet_foldl_keyfun {α : Type} (g : String → α) :
    ∀ (subs : List Subtopic) (acc : List (String × α)) (k : String),
      subs.any (fun s => s.name == k) = true →
      dictGet (subs.foldl (fun a s => dictInsert a s.name (g s.name)) acc) k =
        some (g k) := by
  intro subs
  induction subs with
  | nil => intro acc k h; simp at h
  | cons s t ih =>
    intro acc k h
    rw [List.foldl_cons]
    by_cases hany : t.any (fun s => s.name == k) = true
    · exact ih _ k hany
    · have hk : (s.name == k) = true := by
        simpa [List.any_cons, hany] using h
    
      have hnot : ∀ u ∈ t, (u.name == k) = false := by
        intro u hu
        cases hc : (u.name == k)
        · rfl
        · exact absurd (List.any_eq_true.mpr ⟨u, hu, hc⟩) hany
      rw [dictGet_foldl_of_not_mem (fun s => g s.name) t _ k hnot]
      rw [show s.name = k from beq_iff_eq.mp hk]
      exact dictGet_dictInsert_self acc k (g k)

/-- With pairwise-distinct subtopic names, the folded dict maps each subtopic
name to the value computed from that subtopic. -/
theorem dictGet_foldl_of_nodup {α : Type} (f : Subtopic → α) :
    ∀ (subs : List Subtopic) (acc : List (String × α)) (s : Subtopic),
      (subs.map (fun t => t.name)).Nodup → s ∈ subs →
      dictGet (subs.foldl (fun a t => dictInsert a t.name (f t)) acc) s.name =
        some (f s) := by
  intro subs
  induction subs with
  | nil => intro acc s _ hs; cases hs
  | cons t rest ih =>
    intro acc s hnd hs
    have hnd' : (rest.map (fun u => u.name)).Nodup := (List.nodup_cons.mp hnd).2
    rcases List.mem_cons.mp hs with rfl | hmem
    · have hnot : ∀ u ∈ rest, (u.name == s.name) = false := by
        intro u hu
        have hne := (List.nodup_cons.mp hnd).1
        rw [beq_eq_false_iff_ne]
        intro heq
        refine hne ?_
        show s.name ∈ List.map (fun t => t.name) rest
        rw [← heq]
        exact List.mem_map_of_mem (fun t => t.name) hu
      rw [List.foldl_cons,
        dictGet_foldl_of_not_mem f rest (dictInsert acc s.name (f s)) s.name hnot]
      exact dictGet_dictInsert_self acc s.name (f s)
    · rw [List.foldl_cons]
      exact ih (dictInsert acc t.name (f t)) s hnd' hmem

/-- A value reachable by lookup in the folded dict is either a value already
present in the accumulator or the value computed for some subtopic. -/
theorem dictGet_foldl_prop {α : Type} (P : α → Prop) (f : Subtopic → α) :
    ∀ (subs : List Subtopic) (acc : List (String × α)),
      (∀ p ∈ acc, P p.2) → (∀ s, P (f s)) →
      ∀ (k : String) (v : α),
        dictGet (subs.foldl (fun a t => dictInsert a t.name (f t)) acc) k = some v →
        P v := by
  intro subs
  induction subs with
  | nil =>
    intro acc hacc _ k v h
    exact hacc (k, v) (mem_of_dictGet_eq_some h)
  | cons t rest ih =>
    intro acc hacc hf k v h
    rw [List.foldl_cons] at h
    refine ih (dictInsert acc t.name (f t)) ?_ hf k v h
    intro p hp
    rcases mem_of_mem_dictInsert hp with hmem | rfl
    · exact hacc p hmem
    · exact hf t

/-! ### Searcher (`graph/nodes/searcher.py`, `tools/search_tool.py`) -/

/-- One entry of the list returned by the search collaborator
(`tools/search_tool.py`): a dict with title, url and snippet. -/
structure SearchResult where
  title : String
  url : String
  snippet : String
deriving DecidableEq, Repr

/-- Whether the first list of characters heads the second. -/
def strHeadMatches : List Char → List Char → Bool
  | [], _ => true
  | _ :: _, [] => false
  | c :: cs, d :: ds => c == d && strHeadMatches cs ds

/-- Python `s.startswith(pre)`. -/
def startswith (s pre : String) : Bool :=
  strHeadMatches pre.data s.data

/-- The body of the per-subtopic loop in `search_web` (searcher.py lines
29-52): on a successful search, keep the results with a truthy url, keep only
urls starting with `"http"`, and truncate to the top 5; when the search tool
raises, fall back to 3 placeholder urls built from the subtopic name. -/
def searcher_result (oracle : Subtopic → Option (List SearchResult))
    (subtopic : Subtopic) : List String :=
  match oracle subtopic with
  | some results =>
    let urls := (results.filter (fun r => !(r.url == ""))).map (fun r => r.url)
    let valid_urls := urls.filter (fun url => startswith url "http")
    valid_urls.take 5
  | none =>
    ["https://example.com/article1-" ++ subtopic.name,
     "https://example.com/article2-" ++ subtopic.name,
     "https://example.com/article3-" ++ subtopic.name]

/-- `search_web` (searcher.py lines 9-61): iterate the subtopics, assign each
result list into the `search_results` dict keyed by subtopic name, and store
the dict under `_search_results`. -/
def search_web (state : ReviewState)
    (oracle : Subtopic → Option (List SearchResult)) : ReviewState :=
  let search_results : List (String × List String) :=
    state.subtopics.foldl
      (fun acc subtopic => dictInsert acc subtopic.name (searcher_result oracle subtopic))
      []
  { state with _search_results := some search_results }

/-- If a character-list pattern heads a list, it heads any extension. -/
theorem strHeadMatches_append (p : List Char) :
    ∀ l t : List Char, strHeadMatches p l = true →
      strHeadMatches p (l ++ t) = true := by
  induction p with
  | nil => intro l t _; rfl
  | cons c cs ih =>
    intro l t h
    cases l with
    | nil => simp [strHeadMatches] at h
    | cons d ds =>
      rw [List.cons_append]
      simp only [strHeadMatches, Bool.and_eq_true] at h ⊢
      exact ⟨h.1, ih ds t h.2⟩

/-- A string extending a `"http"`-headed literal starts with `"http"`. -/
theorem startswith_http_append (s : String) (x : String)
    (h : startswith s "http" = true) :
    startswith (s ++ x) "http" = true := by
  unfold startswith at h ⊢
  rw [String.data_append]
  exact strHeadMatches_append _ s.data x.data h

/-- Each searcher placeholder url starts with `"http"`. -/
theorem searcher_placeholder_startswith (pre name : String)
    (h : startswith pre "http" = true) :
    startswith (pre ++ name) "http" = true :=
  startswith_http_append pre name h

/-- The per-subtopic searcher value always has at most 5 urls, each starting
with `"http"`. -/
theorem searcher_result_bounds (oracle : Subtopic → Option (List SearchResult))
    (s : Subtopic) :
    (searcher_result oracle s).length ≤ 5 ∧
      ∀ u ∈ searcher_result oracle s, startswith u "http" = true := by
  unfold searcher_result
  cases oracle s with
  | some results =>
    constructor
    · exact List.length_take_le 5 _
    · intro u hu
      have hu' := List.take_subset 5 _ hu
      exact (List.mem_filter.mp hu').2
  | none =>
    refine ⟨by simp, ?_⟩
    intro u hu
    simp only [List.mem_cons, List.not_mem_nil, or_false] at hu
    rcases hu with rfl | rfl | rfl <;>
      exact searcher_placeholder_startswith _ _ (by decide)

/-- A sample subtopic used in concrete scenarios. -/
def subtopicA : Subtopic :=
  { name := "Topic A", search_query := "query a", rationale := "rationale a" }

/-- A search collaborator returning one result whose url starts with
`"http"` but carries neither the `http://` nor the `https://` scheme. -/
def badUrlOracle : Subtopic → Option (List SearchResult) :=
  fun _ => some [{ title := "Title", url := "httpxbad", snippet := "snippet" }]

/-- A search collaborator that raises on every subtopic. -/
def searchFailOracle : Subtopic → Option (List SearchResult) :=
  fun _ => none

/-- A one-subtopic state. -/
def stateC6 : ReviewState :=
  { initial_state "T" with subtopics := [subtopicA] }

/-- C6 counterexample: the searcher keeps the url `"httpxbad"` — the filter
in searcher.py line 40 tests `startswith("http")` only — even though that url
starts with neither `http://` nor `https://`. -/
theorem search_web_scheme_cex :
    dictGet ((search_web stateC6 badUrlOracle)._search_results.getD [])
        "Topic A" = some ["httpxbad"] ∧
      startswith "httpxbad" "http://" = false ∧
      startswith "httpxbad" "https://" = false := by
  refine ⟨by decide, by decide, by decide⟩

/-- C6 amended: every url list stored by the Searcher has at most 5 entries
and every url in it starts with `"http"` (the placeholder urls start with
`"https://"`, hence with `"http"`; urls from a successful search are only
guaranteed the `"http"` test that the code performs). -/
theorem search_web_url_bounds (st : ReviewState)
    (oracle : Subtopic → Option (List SearchResult)) (name : String)
    (urls : List String)
    (h : dictGet ((search_web st oracle)._search_results.getD []) name =
      some urls) :
    urls.length ≤ 5 ∧ ∀ u ∈ urls, startswith u "http" = true := by
  have hfold : (search_web st oracle)._search_results.getD [] =
      st.subtopics.foldl
        (fun a t => dictInsert a t.name (searcher_result oracle t)) [] := rfl
  rw [hfold] at h
  exact dictGet_foldl_prop
    (fun v => v.length ≤ 5 ∧ ∀ u ∈ v, startswith u "http" = true)
    (searcher_result oracle) st.subtopics [] (fun p hp => absurd hp (List.not_mem_nil p))
    (searcher_result_bounds oracle) name urls h

/-- C6 witness: the amended bound evaluated on the placeholder path. -/
theorem search_web_url_bounds_witness :
    dictGet ((search_web stateC6 searchFailOracle)._search_results.getD [])
        "Topic A" =
      some ["https://example.com/article1-Topic A",
            "https://example.com/article2-Topic A",
            "https://example.com/article3-Topic A"] ∧
    (["https://example.com/article1-Topic A",
      "https://example.com/article2-Topic A",
      "https://example.com/article3-Topic A"].length ≤ 5 ∧
      ∀ u ∈ ["https://example.com/article1-Topic A",
             "https://example.com/article2-Topic A",
             "https://example.com/article3-Topic A"], startswith u "http" = true) :=
  ⟨by decide,
   search_web_url_bounds stateC6 searchFailOracle "Topic A"
     ["https://example.com/article1-Topic A",
      "https://example.com/article2-Topic A",
      "https://example.com/article3-Topic A"] (by decide)⟩

/-- Two subtopics sharing the name `"x"`; the first one searches
successfully, the second one fails. -/
def dupSubtopicA : Subtopic :=
  { name := "x", search_query := "query one", rationale := "r1" }

/-- The second subtopic named `"x"`. -/
def dupSubtopicB : Subtopic :=
  { name := "x", search_query := "query two", rationale := "r2" }

/-- A search collaborator that succeeds on `dupSubtopicA` and raises on every
other subtopic. -/
def dupOracle : Subtopic → Option (List SearchResult) :=
  fun s =>
    if s.search_query == "query one" then
      some [{ title := "Title", url := "http://a", snippet := "s" }]
    else
      none

/-- State holding both same-named subtopics. -/
def stateDup : ReviewState :=
  { initial_state "T" with subtopics := [dupSubtopicA, dupSubtopicB] }

/-- State holding only the succeeding subtopic. -/
def stateDupNoFail : ReviewState :=
  { initial_state "T" with subtopics := [dupSubtopicA] }

/-- C7 counterexample: with two subtopics both named `"x"`, the failure of the
second overwrites the dict entry of the first (which searched successfully
and did not fail), so removing the failing subtopic changes the list stored
for the other one — failure isolation does not hold as stated. -/
theorem search_web_isolation_cex :
    dupOracle dupSubtopicA ≠ none ∧
    dictGet ((search_web stateDup dupOracle)._search_results.getD []) "x" =
      some ["https://example.com/article1-x", "https://example.com/article2-x",
            "https://example.com/article3-x"] ∧
    dictGet ((search_web stateDupNoFail dupOracle)._search_results.getD []) "x" =
      some ["http://a"] ∧
    dictGet ((search_web stateDup dupOracle)._search_results.getD []) "x" ≠
      dictGet ((search_web stateDupNoFail dupOracle)._search_results.getD []) "x" := by
  refine ⟨by decide, by decide, by decide, by decide⟩

/-- C7 amended: provided the subtopic names are pairwise distinct, the entry
stored for each subtopic is a function of that subtopic and its own search
outcome alone; a failing subtopic gets exactly the 3 placeholder urls, and
removing any subtopic leaves the entry of every differently-named subtopic
unchanged. -/
theorem search_web_failure_isolation (st : ReviewState)
    (oracle : Subtopic → Option (List SearchResult))
    (hnd : (st.subtopics.map (fun t => t.name)).Nodup) :
    (∀ s ∈ st.subtopics,
      dictGet ((search_web st oracle)._search_results.getD []) s.name =
        some (searcher_result oracle s)) ∧
    (∀ s : Subtopic, oracle s = none →
      searcher_result oracle s =
        ["https://example.com/article1-" ++ s.name,
         "https://example.com/article2-" ++ s.name,
         "https://example.com/article3-" ++ s.name]) ∧
    (∀ f ∈ st.subtopics, ∀ s ∈ st.subtopics, (s.name == f.name) = false →
      dictGet ((search_web { st with subtopics := st.subtopics.erase f }
          oracle)._search_results.getD []) s.name =
        dictGet ((search_web st oracle)._search_results.getD []) s.name) := by
  have e2 : (search_web st oracle)._search_results.getD [] =
      st.subtopics.foldl
        (fun a t => dictInsert a t.name (searcher_result oracle t)) [] := rfl
  refine ⟨?_, ?_, ?_⟩
  · intro s hs
    rw [e2]
    exact dictGet_foldl_of_nodup (searcher_result oracle) st.subtopics [] s hnd hs
  · intro s h
    unfold searcher_result
    rw [h]
  · intro f hf s hs hne
    have e1 : (search_web { st with subtopics := st.subtopics.erase f }
        oracle)._search_results.getD [] =
        (st.subtopics.erase f).foldl
          (fun a t => dictInsert a t.name (searcher_result oracle t)) [] := rfl
    have hsne : s ≠ f := by
      rw [beq_eq_false_iff_ne] at hne
      intro heq
      exact hne (by rw [heq])
    have hs' : s ∈ st.subtopics.erase f := (List.mem_erase_of_ne hsne).mpr hs
    have hnd' : ((st.subtopics.erase f).map (fun t => t.name)).Nodup :=
      hnd.sublist ((List.erase_sublist f st.subtopics).map (fun t => t.name))
    rw [e1, e2,
      dictGet_foldl_of_nodup (searcher_result oracle) _ [] s hnd' hs',
      dictGet_foldl_of_nodup (searcher_result oracle) st.subtopics [] s hnd hs]

/-- C7 witness: the amended statement evaluated on a one-subtopic state with
a failing search. -/
theorem search_web_failure_isolation_witness :
    (stateC6.subtopics.map (fun t => t.name)).Nodup ∧
    ((∀ s ∈ stateC6.subtopics,
      dictGet ((search_web stateC6 searchFailOracle)._search_results.getD [])
          s.name = some (searcher_result searchFailOracle s)) ∧
    (∀ s : Subtopic, searchFailOracle s = none →
      searcher_result searchFailOracle s =
        ["https://example.com/article1-" ++ s.name,
         "https://example.com/article2-" ++ s.name,
         "https://example.com/article3-" ++ s.name]) ∧
    (∀ f ∈ stateC6.subtopics, ∀ s ∈ stateC6.subtopics,
      (s.name == f.name) = false →
      dictGet ((search_web { stateC6 with
          subtopics := stateC6.subtopics.erase f }
          searchFailOracle)._search_results.getD []) s.name =
        dictGet ((search_web stateC6 searchFailOracle)._search_results.getD [])
          s.name)) :=
  ⟨by simp [stateC6, initial_state, subtopicA],
   search_web_failure_isolation stateC6 searchFailOracle
     (by simp [stateC6, initial_state, subtopicA])⟩

/-! ### Fetcher (`graph/nodes/fetcher.py`) -/

/-- `_create_placeholder_doc` (fetcher.py lines 65-72). -/
def _create_placeholder_doc (url : String) (subtopic : String) : Document :=
  { url := url
    title := "Placeholder for " ++ subtopic
    content := "Placeholder content for " ++ url ++
      ". This would contain actual scraped text in production."
    subtopic := subtopic }

/-- The body of the per-url loop in `fetch_pages` (fetcher.py lines 35-58):
a fetch returning truthy (non-empty) content yields a document whose content
is truncated to the first 10000 characters; a fetch returning `None` or empty
content, or raising, yields the placeholder document for the url. -/
def fetcher_doc (subtopic_name url : String) (outcome : Option String) :
    Document :=
  match outcome with
  | some content =>
    if !(content == "") then
      { url := url
        title := "Article about " ++ subtopic_name
        content := ⟨content.data.take 10000⟩
        subtopic := subtopic_name }
    else
      _create_placeholder_doc url subtopic_name
  | none => _create_placeholder_doc url subtopic_name

/-- `fetch_pages` (fetcher.py lines 10-62): iterate the search-result dict in
insertion order, fetch each url in order, and append one document per url. -/
def fetch_pages (state : ReviewState) (oracle : String → Option String) :
    ReviewState :=
  let search_results := state._search_results.getD []
  let documents : List Document :=
    search_results.foldl
      (fun documents p =>
        documents ++ p.2.map (fun url => fetcher_doc p.1 url (oracle url)))
      []
  { state with documents := documents }

/-- Left fold that appends blocks equals the flattened list of blocks. -/
theorem foldl_append_eq_flatten {α β : Type} (g : α → List β) :
    ∀ (l : List α) (a : List β),
      l.foldl (fun acc x => acc ++ g x) a = a ++ (l.map g).flatten := by
  intro l
  induction l with
  | nil => intro a; simp
  | cons x t ih =>
    intro a
    rw [List.foldl_cons, ih, List.map_cons, List.flatten_cons, List.append_assoc]

/-- The fetcher loop-body document keeps the url of the fetched url. -/
theorem fetcher_doc_url (n u : String) (o : Option String) :
    (fetcher_doc n u o).url = u := by
  cases o with
  | none => rfl
  | some c =>
    by_cases h : (!(c == "")) = true
    · simp only [fetcher_doc, if_pos h]
    · simp only [fetcher_doc, if_neg h, _create_placeholder_doc]

/-- The fetcher loop-body document keeps the subtopic name. -/
theorem fetcher_doc_subtopic (n u : String) (o : Option String) :
    (fetcher_doc n u o).subtopic = n := by
  cases o with
  | none => rfl
  | some c =>
    by_cases h : (!(c == "")) = true
    · simp only [fetcher_doc, if_pos h]
    · simp only [fetcher_doc, if_neg h, _create_placeholder_doc]

/-- The placeholder content has length 79 plus the url length. -/
theorem placeholder_content_length (url subtopic : String) :
    (_create_placeholder_doc url subtopic).content.length = 79 + url.length := by
  show ("Placeholder content for " ++ url ++
    ". This would contain actual scraped text in production.").length =
      79 + url.length
  rw [String.length_append, String.length_append]
  have h1 : ("Placeholder content for ").length = 24 := by decide
  have h2 : (". This would contain actual scraped text in production.").length = 55 := by
    decide
  omega

/-- The fetcher loop-body content is bounded by the larger of 10000 and the
placeholder length for the url. -/
theorem fetcher_doc_content_le (n u : String) (o : Option String) :
    (fetcher_doc n u o).content.length ≤ max 10000 (79 + u.length) := by
  cases o with
  | none =>
    show (_create_placeholder_doc u n).content.length ≤ max 10000 (79 + u.length)
    rw [placeholder_content_length]
    exact le_max_right 10000 (79 + u.length)
  | some c =>
    by_cases h : (!(c == "")) = true
    · simp only [fetcher_doc, if_pos h]
      refine le_trans ?_ (le_max_left 10000 (79 + u.length))
      show (c.data.take 10000).length ≤ 10000
      rw [List.length_take]
      exact min_le_left 10000 c.data.length
    · simp only [fetcher_doc, if_neg h]
      rw [placeholder_content_length]
      exact le_max_right 10000 (79 + u.length)

/-- C8 amended: the Fetcher produces exactly one document per url — in
subtopic order, then url order within each subtopic, never omitting a url —
and each document content is at most 10000 characters when fetched, or
79 plus the url length when it is the failure placeholder. -/
theorem fetch_pages_docs (st : ReviewState) (oracle : String → Option String) :
    ((fetch_pages st oracle).documents.map (fun d => (d.subtopic, d.url)) =
      ((st._search_results.getD []).map
        (fun p => p.2.map (fun u => (p.1, u)))).flatten) ∧
    ((fetch_pages st oracle).documents.length =
      ((st._search_results.getD []).map (fun p => p.2.length)).sum) ∧
    (∀ d ∈ (fetch_pages st oracle).documents,
      d.content.length ≤ max 10000 (79 + d.url.length)) := by
  have hdocs : (fetch_pages st oracle).documents =
      ((st._search_results.getD []).map
        (fun p => p.2.map (fun url => fetcher_doc p.1 url (oracle url)))).flatten := by
    show (st._search_results.getD []).foldl
        (fun documents p =>
          documents ++ p.2.map (fun url => fetcher_doc p.1 url (oracle url))) [] = _
    rw [foldl_append_eq_flatten
      (fun p => p.2.map (fun url => fetcher_doc p.1 url (oracle url)))
      (st._search_results.getD []) []]
    rfl
  refine ⟨?_, ?_, ?_⟩
  · rw [hdocs, List.map_flatten, List.map_map]
    congr 1
    refine List.map_congr_left ?_
    intro p _
    show List.map (fun d => (d.subtopic, d.url))
      (List.map (fun url => fetcher_doc p.1 url (oracle url)) p.2) = _
    rw [List.map_map]
    refine List.map_congr_left ?_
    intro u _
    simp [Function.comp, fetcher_doc_url, fetcher_doc_subtopic]
  · rw [hdocs, List.length_flatten, List.map_map]
    congr 1
    refine List.map_congr_left ?_
    intro p _
    simp [Function.comp]
  · intro d hd
    rw [hdocs] at hd
    obtain ⟨inner, hinner, hdmem⟩ := List.mem_flatten.mp hd
    obtain ⟨p, _, rfl⟩ := List.mem_map.mp hinner
    obtain ⟨u, _, rfl⟩ := List.mem_map.mp hdmem
    rw [fetcher_doc_url]
    exact fetcher_doc_content_le p.1 u (oracle u)

/-- A url of length 9922 starting with `"http"`. -/
def longUrl : String := "http" ++ String.mk (List.replicate 9918 'a')

/-- The length of `longUrl`. -/
theorem longUrl_length : longUrl.length = 9922 := by
  show ("http" ++ String.mk (List.replicate 9918 'a')).length = 9922
  rw [String.length_append]
  have h1 : ("http").length = 4 := by decide
  have h2 : (String.mk (List.replicate 9918 'a')).length = 9918 := by
    show (List.replicate 9918 'a').length = 9918
    rw [List.length_replicate]
  omega

/-- A state whose search-result mapping holds the single long url. -/
def stateC8 : ReviewState :=
  { initial_state "T" with _search_results := some [("Topic A", [longUrl])] }

/-- A fetch collaborator that fails on every url. -/
def fetchFailOracle : String → Option String :=
  fun _ => none

/-- C8 counterexample: when the fetch of a url of length 9922 fails, the
placeholder document content has length 10079 minus 78, namely 10001
characters, exceeding the 10000-character bound the claim states for every
document. -/
theorem fetch_pages_length_cex :
    (fetch_pages stateC8 fetchFailOracle).documents.map
        (fun d => d.content.length) = [10001] ∧
      ¬(10001 ≤ 10000) := by
  constructor
  · have hdoc : (fetch_pages stateC8 fetchFailOracle).documents =
        [_create_placeholder_doc longUrl "Topic A"] := rfl
    rw [hdoc, List.map_cons, List.map_nil, placeholder_content_length,
      longUrl_length]
  · decide

/-! ### Synthesizer (`graph/nodes/synthesizer.py`) -/

/-- Concatenation of a list of strings in order. -/
def strConcat (l : List String) : String :=
  l.foldr (fun s acc => s ++ acc) ""

/-- `_create_placeholder_review` (synthesizer.py lines 77-104), written as in
the source: a header interpolating the topic twice, then a loop appending one
subsection per summary (subtopic heading, summary text, a bulleted line per
key finding), then the fixed Research Gaps and Conclusion sections. -/
def _create_placeholder_review (state : ReviewState) : String :=
  let final_review :=
    "# Literature Review: " ++ state.topic ++
    "\n\n## Introduction\nThis literature review synthesizes research on " ++
    state.topic ++ ".\n\n## Key Themes\n\n"
  let final_review := state.summaries.foldl
    (fun acc summary =>
      let acc := acc ++ ("### " ++ summary.subtopic ++ "\n\n")
      let acc := acc ++ (summary.summary ++ "\n\n")
      let acc := acc ++ "**Key Findings:**\n"
      let acc := summary.key_findings.foldl
        (fun a finding => a ++ ("- " ++ finding ++ "\n")) acc
      acc ++ "\n")
    final_review
  final_review ++
    "\n## Research Gaps\n[Placeholder: OpenAI integration needed to identify gaps]\n\n## Conclusion\n[Placeholder: OpenAI integration needed for synthesis]\n"

/-- `synthesize_review` (synthesizer.py lines 11-74): on a successful LLM
call the response content becomes the final review; when the call raises, the
deterministic placeholder assembly does. Either way `final_review` is set. -/
def synthesize_review (state : ReviewState) (llm : Option String) :
    ReviewState :=
  match llm with
  | some content => { state with final_review := some content }
  | none => { state with final_review := some (_create_placeholder_review state) }

/-- The closed form of one subsection of the placeholder review. -/
def synthesizer_section (summary : Summary) : String :=
  "### " ++ summary.subtopic ++ "\n\n" ++ (summary.summary ++ "\n\n") ++
    "**Key Findings:**\n" ++
    strConcat (summary.key_findings.map (fun finding => "- " ++ finding ++ "\n")) ++
    "\n"

/-- Left fold appending string pieces equals appending their concatenation. -/
theorem foldl_append_eq_strConcat {α : Type} (g : α → String) :
    ∀ (l : List α) (a : String),
      l.foldl (fun acc x => acc ++ g x) a = a ++ strConcat (l.map g) := by
  intro l
  induction l with
  | nil =>
    intro a
    show a = a ++ strConcat []
    rw [show strConcat [] = "" from rfl, String.append_empty]
  | cons x t ih =>
    intro a
    rw [List.foldl_cons, ih, List.map_cons,
      show strConcat (g x :: t.map g) = g x ++ strConcat (t.map g) from rfl,
      ← String.append_assoc]

/-- The loop body of the placeholder review appends one closed subsection. -/
theorem synthesizer_loop_body (acc : String) (summary : Summary) :
    (let a1 := acc ++ ("### " ++ summary.subtopic ++ "\n\n")
     let a2 := a1 ++ (summary.summary ++ "\n\n")
     let a3 := a2 ++ "**Key Findings:**\n"
     let a4 := summary.key_findings.foldl
       (fun a finding => a ++ ("- " ++ finding ++ "\n")) a3
     a4 ++ "\n") = acc ++ synthesizer_section summary := by
  show ((((acc ++ ("### " ++ summary.subtopic ++ "\n\n")) ++
      (summary.summary ++ "\n\n")) ++ "**Key Findings:**\n"
      |> summary.key_findings.foldl (fun a finding => a ++ ("- " ++ finding ++ "\n")))
      ++ "\n") = acc ++ synthesizer_section summary
  rw [foldl_append_eq_strConcat (fun finding => "- " ++ finding ++ "\n")]
  unfold synthesizer_section
  simp only [String.append_assoc]

/-- C2: the Synthesizer always sets `final_review` to a string — the LLM
response on success, and on failure exactly the deterministic markdown
assembly: a heading interpolating the topic, one subsection per summary with
its summary text and bulleted key findings, then the fixed Research Gaps and
Conclusion sections. -/
theorem synthesize_review_total :
    (∀ (st : ReviewState) (llm : Option String),
      (synthesize_review st llm).final_review.isSome = true) ∧
    (∀ (st : ReviewState) (content : String),
      (synthesize_review st (some content)).final_review = some content) ∧
    (∀ st : ReviewState,
      (synthesize_review st none).final_review =
        some (_create_placeholder_review st)) ∧
    (∀ st : ReviewState,
      _create_placeholder_review st =
        "# Literature Review: " ++ st.topic ++
        "\n\n## Introduction\nThis literature review synthesizes research on " ++
        st.topic ++ ".\n\n## Key Themes\n\n" ++
        strConcat (st.summaries.map synthesizer_section) ++
        "\n## Research Gaps\n[Placeholder: OpenAI integration needed to identify gaps]\n\n## Conclusion\n[Placeholder: OpenAI integration needed for synthesis]\n") := by
  refine ⟨?_, ?_, ?_, ?_⟩
  · intro st llm
    cases llm <;> rfl
  · intro st content
    rfl
  · intro st
    rfl
  · intro st
    unfold _create_placeholder_review
    have hbody : (fun (acc : String) (summary : Summary) =>
        let acc := acc ++ ("### " ++ summary.subtopic ++ "\n\n")
        let acc := acc ++ (summary.summary ++ "\n\n")
        let acc := acc ++ "**Key Findings:**\n"
        let acc := summary.key_findings.foldl
          (fun a finding => a ++ ("- " ++ finding ++ "\n")) acc
        acc ++ "\n") =
        (fun (acc : String) (summary : Summary) => acc ++ synthesizer_section summary) := by
      funext acc summary
      exact synthesizer_loop_body acc summary
    rw [hbody]
    simp only [foldl_append_eq_strConcat synthesizer_section, String.append_assoc]

/-! ### Planner (`graph/nodes/planner.py`) -/

/-- The fallback subtopic template from the except branch of `plan_subtopics`
(planner.py lines 66-82), derived from the topic by string interpolation. -/
def planner_fallback (topic : String) : List Subtopic :=
  [{ name := "Foundational Overview"
     search_query := topic ++ " overview introduction"
     rationale := "Provides foundational understanding" },
   { name := "Recent Advances"
     search_query := topic ++ " recent developments 2024"
     rationale := "Covers latest developments" },
   { name := "Challenges and Limitations"
     search_query := topic ++ " challenges limitations"
     rationale := "Identifies open problems" }]

/-- `plan_subtopics` (planner.py lines 20-84): on a successful structured
LLM call the returned subtopic list is stored as-is (the code performs no
validation of its length or fields); when the call raises, the fixed
three-subtopic template is stored. -/
def plan_subtopics (state : ReviewState) (llm : Option (List Subtopic)) :
    ReviewState :=
  match llm with
  | some plan => { state with subtopics := plan }
  | none => { state with subtopics := planner_fallback state.topic }

/-- Appending a non-empty literal yields a non-empty string. -/
theorem append_ne_empty (topic lit : String) (h : 0 < lit.length) :
    topic ++ lit ≠ "" := by
  intro he
  have hlen := congrArg String.length he
  rw [String.length_append, show String.length "" = 0 from rfl] at hlen
  omega

/-- C5 counterexample: a schema-conforming structured response carrying an
empty subtopic list is stored unchanged, so the Planner output does not have
between 3 and 6 subtopics; the code enforces no bound on the success path. -/
theorem plan_subtopics_range_cex :
    (plan_subtopics (initial_state "quantum error correction")
        (some [])).subtopics = [] ∧
      ¬(3 ≤ (plan_subtopics (initial_state "quantum error correction")
        (some [])).subtopics.length) :=
  ⟨rfl, by decide⟩

/-- C5 amended: the Planner never raises; on an LLM failure it returns
exactly the fixed three-subtopic template derived from the topic, whose 3
entries all have non-empty name and non-empty search query; on an LLM success
it stores the returned list unchanged, without validating the 3-to-6 bound or
field non-emptiness. -/
theorem plan_subtopics_fallback_shape :
    (∀ st : ReviewState,
      (plan_subtopics st none).subtopics = planner_fallback st.topic) ∧
    (∀ topic : String, (planner_fallback topic).length = 3 ∧
      3 ≤ (planner_fallback topic).length ∧ (planner_fallback topic).length ≤ 6) ∧
    (∀ topic : String, ∀ s ∈ planner_fallback topic,
      s.name ≠ "" ∧ s.search_query ≠ "") ∧
    (∀ (st : ReviewState) (plan : List Subtopic),
      (plan_subtopics st (some plan)).subtopics = plan) := by
  refine ⟨fun st => rfl,
    fun topic => ⟨rfl, by simp [planner_fallback], by simp [planner_fallback]⟩,
    ?_, fun st plan => rfl⟩
  intro topic s hs
  simp only [planner_fallback, List.mem_cons, List.not_mem_nil, or_false] at hs
  rcases hs with rfl | rfl | rfl
  · exact ⟨(by decide : ¬(("Foundational Overview" : String) = "")),
      append_ne_empty topic _ (by decide)⟩
  · exact ⟨(by decide : ¬(("Recent Advances" : String) = "")),
      append_ne_empty topic _ (by decide)⟩
  · exact ⟨(by decide : ¬(("Challenges and Limitations" : String) = "")),
      append_ne_empty topic _ (by decide)⟩

/-! ### Chunk and embed (`graph/nodes/chunk_embed.py`) and retriever
(`graph/nodes/retriever.py`) -/

/-- `chunk_and_embed` (chunk_embed.py lines 13-112). Empty documents produce
empty chunks and no index. Otherwise the external text splitter and embedding
calls happen inside one try block: on success (`outcome = some vs`) each
split window becomes a chunk with the parent document metadata and the index
handle is stored; on any failure (`outcome = none`) the fallback makes one
1000-character chunk per document and stores no index. -/
def chunk_and_embed (state : ReviewState) (splitter : String → List String)
    (outcome : Option VectorStore) : ReviewState :=
  if state.documents = [] then
    { state with chunks := [], vector_store := none }
  else
    match outcome with
    | some vs =>
      { state with
        chunks := (state.documents.map (fun doc =>
          (splitter doc.content).map (fun chunk_text =>
            { text := chunk_text
              metadata := { url := doc.url, title := doc.title,
                            subtopic := doc.subtopic } }))).flatten
        vector_store := some vs }
    | none =>
      { state with
        chunks := state.documents.map (fun doc =>
          { text := ⟨doc.content.data.take 1000⟩
            metadata := { url := doc.url, title := doc.title,
                          subtopic := doc.subtopic } })
        vector_store := none }

/-- The metadata-filtering fallback of the Retriever (retriever.py lines
29-33 and 60-64): chunks whose metadata subtopic equals the queried name,
first 10 kept. -/
def retriever_filter (chunks : List Chunk) (name : String) : List Chunk :=
  (chunks.filter (fun chunk => chunk.metadata.subtopic == name)).take 10

/-- `retrieve_context` (retriever.py lines 9-68): with no vector store every
subtopic uses metadata filtering; with a vector store each subtopic queries
it and falls back to metadata filtering when the query raises. -/
def retrieve_context (state : ReviewState) : ReviewState :=
  match state.vector_store with
  | none =>
    let retrieved_chunks := state.subtopics.foldl
      (fun acc subtopic =>
        dictInsert acc subtopic.name (retriever_filter state.chunks subtopic.name))
      []
    { state with _retrieved_chunks := some retrieved_chunks }
  | some vs =>
    let retrieved_chunks := state.subtopics.foldl
      (fun acc subtopic =>
        dictInsert acc subtopic.name
          (match vs subtopic.search_query with
           | some results => results
           | none => retriever_filter state.chunks subtopic.name))
      []
    { state with _retrieved_chunks := some retrieved_chunks }

/-- The chunk-and-embed fallback stores no vector index. -/
theorem chunk_and_embed_fallback_no_index (st : ReviewState)
    (splitter : String → List String) :
    (chunk_and_embed st splitter none).vector_store = none := by
  unfold chunk_and_embed
  by_cases h : st.documents = []
  · rw [if_pos h]
  · rw [if_neg h]

/-- The chunk-and-embed stage keeps the subtopics unchanged. -/
theorem chunk_and_embed_subtopics (st : ReviewState)
    (splitter : String → List String) (outcome : Option VectorStore) :
    (chunk_and_embed st splitter outcome).subtopics = st.subtopics := by
  unfold chunk_and_embed
  by_cases h : st.documents = []
  · rw [if_pos h]
  · rw [if_neg h]
    cases outcome <;> rfl

/-- C9: feeding the Chunk/Embed fallback output (no vector index) into the
Retriever, the metadata-filtering path stores for each subtopic exactly the
first 10 chunks whose metadata subtopic equals that subtopic name — every
stored chunk carries the queried name, at most 10 are kept, and they appear
in their original chunk order. -/
theorem retrieve_context_fallback_filtering (st : ReviewState)
    (splitter : String → List String) (s : Subtopic)
    (hs : s ∈ st.subtopics) :
    dictGet ((retrieve_context (chunk_and_embed st splitter none))._retrieved_chunks.getD [])
        s.name =
      some (retriever_filter (chunk_and_embed st splitter none).chunks s.name) ∧
    (∀ c ∈ retriever_filter (chunk_and_embed st splitter none).chunks s.name,
      c.metadata.subtopic = s.name) ∧
    (retriever_filter (chunk_and_embed st splitter none).chunks s.name).length ≤ 10 ∧
    (retriever_filter (chunk_and_embed st splitter none).chunks s.name).Sublist
      (chunk_and_embed st splitter none).chunks := by
  refine ⟨?_, ?_, ?_, ?_⟩
  · have hvs := chunk_and_embed_fallback_no_index st splitter
    have hsubs := chunk_and_embed_subtopics st splitter none
    have hget : (retrieve_context (chunk_and_embed st splitter none))._retrieved_chunks.getD [] =
        (chunk_and_embed st splitter none).subtopics.foldl
          (fun acc subtopic =>
            dictInsert acc subtopic.name
              (retriever_filter (chunk_and_embed st splitter none).chunks subtopic.name))
          [] := by
      unfold retrieve_context
      rw [hvs]
      rfl
    rw [hget, hsubs]
    refine dictGet_foldl_keyfun
      (fun name => retriever_filter (chunk_and_embed st splitter none).chunks name)
      st.subtopics [] s.name ?_
    exact List.any_eq_true.mpr ⟨s, hs, beq_self_eq_true s.name⟩
  · intro c hc
    have hc' := List.take_subset 10 _ hc
    have := (List.mem_filter.mp hc').2
    simpa using this
  · exact List.length_take_le 10 _
  · exact (List.take_sublist 10 _).trans (List.filter_sublist _)

/-- A one-subtopic, one-document state for concrete scenarios. -/
def stateC9 : ReviewState :=
  { initial_state "T" with
    subtopics := [subtopicA]
    documents := [{ url := "http://a", title := "Doc", content := "hello",
                    subtopic := "Topic A" }] }

/-- C9 witness: the fallback filtering evaluated on a concrete state. -/
theorem retrieve_context_fallback_filtering_witness :
    subtopicA ∈ stateC9.subtopics ∧
    (dictGet ((retrieve_context (chunk_and_embed stateC9 (fun _ => []) none))._retrieved_chunks.getD [])
        subtopicA.name =
      some (retriever_filter (chunk_and_embed stateC9 (fun _ => []) none).chunks subtopicA.name) ∧
    (∀ c ∈ retriever_filter (chunk_and_embed stateC9 (fun _ => []) none).chunks subtopicA.name,
      c.metadata.subtopic = subtopicA.name) ∧
    (retriever_filter (chunk_and_embed stateC9 (fun _ => []) none).chunks subtopicA.name).length ≤ 10 ∧
    (retriever_filter (chunk_and_embed stateC9 (fun _ => []) none).chunks subtopicA.name).Sublist
      (chunk_and_embed stateC9 (fun _ => []) none).chunks) :=
  ⟨by decide,
   retrieve_context_fallback_filtering stateC9 (fun _ => []) subtopicA (by decide)⟩

/-! ### The quality-gate retry loop (`main.py`, `build_graph` lines 70-124) -/

/-- One pass of the retry loop wired in `build_graph`: Searcher, then
Fetcher, then Quality Gate, using the external collaborators of that pass.
None of the three stages touches `_retry_count`. -/
def pipeline_pass (st : ReviewState)
    (searchOracle : Subtopic → Option (List SearchResult))
    (fetchOracle : String → Option String) : ReviewState :=
  check_quality (fetch_pages (search_web st searchOracle) fetchOracle)

/-- The conditional edge out of the Quality Gate in `build_graph`: run one
pass, consult `should_retry_search`, loop back to the Searcher on `retry`
and hand the state to Chunk/Embed (toward the Synthesizer) on `continue`.
The state flows on unchanged between passes exactly as in the graph — in
particular no code increments `_retry_count`. Fuel bounds the number of
modelled passes; `none` means the router chose `retry` at every one of the
`fuel` evaluations, so the run never continued. -/
def run_from_searcher (searchOracles : ℕ → Subtopic → Option (List SearchResult))
    (fetchOracles : ℕ → String → Option String) :
    ℕ → ℕ → ReviewState → Option ReviewState
  | 0, _, _ => none
  | fuel + 1, k, st =>
    if should_retry_search (pipeline_pass st (searchOracles k) (fetchOracles k)) = "retry" then
      run_from_searcher searchOracles fetchOracles fuel (k + 1)
        (pipeline_pass st (searchOracles k) (fetchOracles k))
    else
      some (pipeline_pass st (searchOracles k) (fetchOracles k))

/-- Modelled from the spec: `On retry, the runner increments retry_count and
re-enters at Searcher`. No code under src/ performs this increment —
`_retry_count` is only initialized to 0 in main.py line 169 and read in
quality_check.py line 72 — so the incrementing runner exists only in the
spec; this definition adds the increment on the retry branch and is
otherwise identical to `run_from_searcher`. -/
def run_from_searcher_spec (searchOracles : ℕ → Subtopic → Option (List SearchResult))
    (fetchOracles : ℕ → String → Option String) :
    ℕ → ℕ → ReviewState → Option ReviewState
  | 0, _, _ => none
  | fuel + 1, k, st =>
    if should_retry_search (pipeline_pass st (searchOracles k) (fetchOracles k)) = "retry" then
      run_from_searcher_spec searchOracles fetchOracles fuel (k + 1)
        { pipeline_pass st (searchOracles k) (fetchOracles k) with
          _retry_count := some
            ((pipeline_pass st (searchOracles k) (fetchOracles k))._retry_count.getD 0 + 1) }
    else
      some (pipeline_pass st (searchOracles k) (fetchOracles k))

/-- Every entry of the folded dict is an accumulator entry or a computed
value. -/
theorem entries_foldl_prop {α : Type} (P : α → Prop) (f : Subtopic → α) :
    ∀ (subs : List Subtopic) (acc : List (String × α)),
      (∀ p ∈ acc, P p.2) → (∀ s, P (f s)) →
      ∀ p ∈ subs.foldl (fun a t => dictInsert a t.name (f t)) acc, P p.2 := by
  intro subs
  induction subs with
  | nil => intro acc hacc _ p hp; exact hacc p hp
  | cons t rest ih =>
    intro acc hacc hf p hp
    rw [List.foldl_cons] at hp
    refine ih (dictInsert acc t.name (f t)) ?_ hf p hp
    intro q hq
    rcases mem_of_mem_dictInsert hq with hmem | rfl
    · exact hacc q hmem
    · exact hf t

/-- A flatten of all-empty blocks is empty. -/
theorem flatten_eq_nil_of_all_nil {α : Type} :
    ∀ l : List (List α), (∀ x ∈ l, x = []) → l.flatten = [] := by
  intro l
  induction l with
  | nil => intro _; rfl
  | cons x t ih =>
    intro h
    rw [List.flatten_cons, h x (List.mem_cons_self x t), List.nil_append]
    exact ih (fun y hy => h y (List.mem_cons_of_mem x hy))

/-- When every search returns zero results, the Fetcher produces zero
documents (each subtopic keeps an empty url list, so there is nothing to
fetch). -/
theorem zero_results_zero_docs (st : ReviewState)
    (fetchOracle : String → Option String) :
    (fetch_pages (search_web st (fun _ => some [])) fetchOracle).documents = [] := by
  have hentry : ∀ p ∈ st.subtopics.foldl
      (fun a t => dictInsert a t.name (searcher_result (fun _ => some []) t)) [],
      p.2 = ([] : List String) := by
    refine entries_foldl_prop (fun v => v = []) (searcher_result (fun _ => some []))
      st.subtopics [] (fun p hp => absurd hp (List.not_mem_nil p)) (fun s => rfl)
  show ((search_web st (fun _ => some []))._search_results.getD []).foldl
      (fun documents p =>
        documents ++ p.2.map (fun url => fetcher_doc p.1 url (fetchOracle url))) [] = []
  rw [foldl_append_eq_flatten]
  rw [List.nil_append]
  refine flatten_eq_nil_of_all_nil _ ?_
  intro x hx
  obtain ⟨p, hp, rfl⟩ := List.mem_map.mp hx
  rw [hentry p hp]
  rfl

/-- The quality gate flag, in general form. -/
theorem check_quality_flag (st : ReviewState) :
    (check_quality st)._quality_passed =
      some (some (decide (st.documents.length ≥ MIN_TOTAL_DOCS) &&
        decide ((st.documents.length : ℚ) / ((max st.subtopics.length 1 : ℕ) : ℚ) ≥
          MIN_DOCS_PER_SUBTOPIC))) := rfl

/-- A pass with zero search results always fails the quality gate. -/
theorem pass_quality_false (st : ReviewState)
    (fetchOracle : String → Option String) :
    (pipeline_pass st (fun _ => some []) fetchOracle)._quality_passed =
      some (some false) := by
  unfold pipeline_pass
  rw [check_quality_flag]
  have hdocs := zero_results_zero_docs st fetchOracle
  rw [hdocs]
  simp only [List.length_nil, MIN_TOTAL_DOCS]
  rw [show decide ((0 : ℕ) ≥ 5) = false from by decide, Bool.false_and]

/-- No stage of a pass touches `_retry_count`. -/
theorem pass_retry_count (st : ReviewState)
    (searchOracle : Subtopic → Option (List SearchResult))
    (fetchOracle : String → Option String) :
    (pipeline_pass st searchOracle fetchOracle)._retry_count =
      st._retry_count := rfl

/-- The router decision when the quality flag is a stored `False`. -/
theorem router_false_flag (st : ReviewState) (rc : Int)
    (hq : st._quality_passed = some (some false))
    (hrc : st._retry_count = some rc) :
    should_retry_search st = if rc < 1 then "retry" else "continue" := by
  unfold should_retry_search
  rw [hq, hrc]
  by_cases h : rc < 1 <;> simp [truthy, MAX_RETRIES, h]

/-- With zero search results on every pass and the initial retry count 0,
the unmodified runner retries forever: no fuel ever makes it continue. -/
theorem run_zero_results_stuck :
    ∀ (fuel k : ℕ) (st : ReviewState), st._retry_count = some 0 →
      run_from_searcher (fun _ _ => some []) (fun _ _ => none) fuel k st = none := by
  intro fuel
  induction fuel with
  | zero => intro k st _; rfl
  | succ n ih =>
    intro k st hrc
    have hq := pass_quality_false st (fun _ => none)
    have hrc' : (pipeline_pass st (fun _ => some []) (fun _ => none))._retry_count =
        some 0 := by
      rw [pass_retry_count]
      exact hrc
    have hrouter : should_retry_search
        (pipeline_pass st (fun _ => some []) (fun _ => none)) = "retry" := by
      rw [router_false_flag _ 0 hq hrc', if_pos (by norm_num)]
    show run_from_searcher (fun _ _ => some []) (fun _ _ => none) (n + 1) k st = none
    rw [run_from_searcher, if_pos hrouter]
    exact ih (k + 1) _ hrc'

/-- The failing scenario for the retry bound: the planner fallback subtopics
(external planning failed) and, on every pass, searches that return zero
results — so zero urls, zero documents, and a failing quality gate on every
evaluation. -/
def stuckState : ReviewState :=
  plan_subtopics (initial_state "quantum error correction") none

/-- The state after the first pass of the spec-modelled runner on
`stuckState`: the pass output with `_retry_count` incremented. -/
def stuckPass1 : ReviewState :=
  { pipeline_pass stuckState (fun _ => some []) (fun _ => none) with
    _retry_count := some
      ((pipeline_pass stuckState (fun _ => some []) (fun _ => none))._retry_count.getD 0 + 1) }

/-- C1: the code never increments `_retry_count` (it is initialized to 0 in
main and only read in quality_check), so when quality keeps failing — for
example when every search returns zero results — the router returns `retry`
at every evaluation and the run never continues to the Synthesizer, for any
number of passes; whereas the spec-modelled runner that increments the
counter on the retry branch continues after exactly one retry on the same
input. -/
theorem quality_gate_retry_unbounded :
    stuckState._retry_count = some 0 ∧
    (∀ fuel k : ℕ,
      run_from_searcher (fun _ _ => some []) (fun _ _ => none) fuel k
        stuckState = none) ∧
    (run_from_searcher_spec (fun _ _ => some []) (fun _ _ => none) 2 0
        stuckState).isSome = true := by
  refine ⟨rfl, fun fuel k => run_zero_results_stuck fuel k _ rfl, ?_⟩
  have hq0 := pass_quality_false stuckState (fun _ => none)
  have hrc0 : (pipeline_pass stuckState (fun _ => some [])
      (fun _ => none))._retry_count = some 0 := by
    rw [pass_retry_count]
    rfl
  have hrouter0 : should_retry_search
      (pipeline_pass stuckState (fun _ => some []) (fun _ => none)) = "retry" := by
    rw [router_false_flag _ 0 hq0 hrc0, if_pos (by norm_num)]
  rw [show (2 : ℕ) = 1 + 1 from rfl, run_from_searcher_spec, if_pos hrouter0]
  show (run_from_searcher_spec (fun _ _ => some []) (fun _ _ => none) 1 1
    stuckPass1).isSome = true
  have hq1 := pass_quality_false stuckPass1 (fun _ => none)
  have hrc1 : (pipeline_pass stuckPass1 (fun _ => some [])
      (fun _ => none))._retry_count = some 1 := by
    rw [pass_retry_count]
    rfl
  have hrouter1 : should_retry_search
      (pipeline_pass stuckPass1 (fun _ => some []) (fun _ => none)) = "continue" := by
    rw [router_false_flag _ 1 hq1 hrc1, if_neg (by norm_num)]
  rw [show (1 : ℕ) = 0 + 1 from rfl, run_from_searcher_spec,
    if_neg (by rw [hrouter1]; decide)]
  rfl
